import Mathlib

/-!
Verification of the OAuth authorization relay (`src/handler.ts`, with the
environment schema of `src/env.ts`) against its natural-language
specification.

The TypeScript handler is shallowly embedded below.  Conventions:

* JavaScript strings become `String`; a query parameter or header that may be
  absent (`string | null` / `string | undefined`) becomes `Option String`,
  and JavaScript truthiness of such a value (`!x`) is `falsyS`.
* The random CSRF token minted by `crypto.randomUUID().replaceAll('-', '')`
  is nondeterministic, so it is passed to `handleAuthR` as an explicit
  parameter; a genuine `randomUUID` value always yields 32 lowercase hex
  characters (`isHex32`).
* The outbound token-exchange `fetch` of `handleCallback` is external I/O;
  its observable outcome is passed in as a `FetchOutcome` value
  (no response / unparseable JSON body / parsed JSON fields).
* The JavaScript `RegExp` uses are embedded by their match semantics:
  the allow-list regex `^escapeRegExp(entry).replace('\x5c*', '.+')$`
  (first `*` becomes "one or more characters", everything else literal) and
  the cookie regex `\bcsrf-token=([a-z-]+?)_([0-9a-f]\x7b32\x7d)\b`
  (leftmost match; the lazy provider group is forced by the terminating `_`,
  which is outside the character class, so the match is deterministic).
  The regex wildcard `.` is modelled as JavaScript defines it without the
  dotAll flag: any character other than a line terminator
  (LF, CR, U+2028, U+2029).
-/

/-- Environment variables consumed by the handler (`src/env.ts` schema after
zod validation: optional credentials stay `Option String`, defaulted fields
are plain `String`). -/
structure Env where
  NODE_ENV : String
  HOST : String
  PORT : Nat
  ALLOWED_DOMAINS : String
  GITHUB_CLIENT_ID : Option String
  GITHUB_CLIENT_SECRET : Option String
  GITHUB_HOSTNAME : String
  GITLAB_CLIENT_ID : Option String
  GITLAB_CLIENT_SECRET : Option String
  GITLAB_HOSTNAME : String
  BITBUCKET_CLIENT_ID : Option String
  BITBUCKET_CLIENT_SECRET : Option String
  BITBUCKET_HOSTNAME : String
  INSECURE_COOKIES : String
  LOG_LEVEL : String
deriving DecidableEq

/-- The options record passed to `outputHTML` (`OutputHTMLOptions` in the
source); providers are modelled as plain strings, `provider` defaults to
`unknown` exactly as in the destructuring default of `outputHTML`. -/
structure OutputHTMLOptions where
  provider : String := "unknown"
  token : Option String := none
  error : Option String := none
  errorCode : Option String := none
deriving DecidableEq

/-- JavaScript truthiness test for a possibly-absent string: `!x` is true when
the value is `null`/`undefined` or the empty string. -/
def falsyS (o : Option String) : Bool := o.getD "" == ""

/-- `supportedProviders` from the source. -/
def supportedProviders : List String := ["github", "gitlab", "bitbucket"]

/-- `s` contains `sub` as a (contiguous) substring. -/
def strContains (s sub : String) : Prop := ∃ a b : String, s = a ++ sub ++ b

/-- Lowercase hexadecimal digits, the character class `[0-9a-f]` of the
cookie regex. -/
def hexLcChars : List Char := ("0123456789abcdef").data

/-- `[0-9a-f]` as a Boolean character test. -/
def isHexLC (c : Char) : Bool := hexLcChars.contains c

/-- The shape of a minted CSRF token: exactly 32 lowercase hex characters
(the result of `crypto.randomUUID().replaceAll('-', '')`). -/
def isHex32 (s : String) : Bool := s.length == 32 && s.data.all isHexLC

/-- The character class `[a-z-]` of the cookie regex provider group:
a hyphen or an ASCII lowercase letter (codepoints 97 through 122). -/
def isProvChar (c : Char) : Bool := c == '-' || (97 ≤ c.toNat && c.toNat ≤ 122)

/-- JavaScript `\w` (`[A-Za-z0-9_]`), used by the `\b` boundary assertions. -/
def isWordChar (c : Char) : Bool := c.isAlphanum || c == '_'

/-! ### JSON serialization (`JSON.stringify` of the content record) -/

/-- Lowercase hex digit. -/
def hexDigitLC (n : Nat) : Char := (("0123456789abcdef").data).getD n '0'

/-- Uppercase hex digit (used by percent-encoding). -/
def hexDigitUC (n : Nat) : Char := (("0123456789ABCDEF").data).getD n '0'

/-- Two lowercase hex digits of a byte. -/
def byteHexLC (b : Nat) : String := String.mk [hexDigitLC (b / 16 % 16), hexDigitLC (b % 16)]

/-- Two uppercase hex digits of a byte. -/
def byteHexUC (b : Nat) : String := String.mk [hexDigitUC (b / 16 % 16), hexDigitUC (b % 16)]

/-- `JSON.stringify` escaping of one character inside a string literal. -/
def jsonEscapeChar (c : Char) : String :=
  if c == '"' then "\\\""
  else if c == '\\' then "\\\\"
  else if c.toNat == 10 then "\\n"
  else if c.toNat == 13 then "\\r"
  else if c.toNat == 9 then "\\t"
  else if c.toNat == 8 then "\\b"
  else if c.toNat == 12 then "\\f"
  else if c.toNat < 32 then "\\u00" ++ byteHexLC c.toNat
  else String.singleton c

/-- `JSON.stringify` of a string value. -/
def jsonString (s : String) : String :=
  "\"" ++ String.join (s.data.map jsonEscapeChar) ++ "\""

/-- Truthiness of the `error` option, as tested by `error ?` in
`outputHTML`. -/
def isErrOpts (opts : OutputHTMLOptions) : Bool := !(falsyS opts.error)

/-- `JSON.stringify(content)` where `content` is the success record
`\x7b provider, token \x7d` or the error record
`\x7b provider, error, errorCode \x7d`; `JSON.stringify` omits fields whose
value is `undefined`. -/
def contentJSON (opts : OutputHTMLOptions) : String :=
  if isErrOpts opts then
    "\x7b\"provider\":" ++ jsonString opts.provider
      ++ ",\"error\":" ++ jsonString (opts.error.getD "")
      ++ (match opts.errorCode with
          | none => ""
          | some ec => ",\"errorCode\":" ++ jsonString ec)
      ++ "\x7d"
  else
    "\x7b\"provider\":" ++ jsonString opts.provider
      ++ (match opts.token with
          | none => ""
          | some t => ",\"token\":" ++ jsonString t)
      ++ "\x7d"

/-- The `state` string interpolated into the page: `error ? 'error' :
'success'`. -/
def pageState (opts : OutputHTMLOptions) : String :=
  if isErrOpts opts then "error" else "success"

/-- The HTML template literal of `outputHTML` with `provider`, `state` and
the JSON content interpolated. -/
def pageHTML (provider state content : String) : String :=
  "\n      <!doctype html><html><body><script>\n        (() => \x7b\n          window.addEventListener(\x27message\x27, (\x7b data, origin \x7d) => \x7b\n            if (data === \x27authorizing:"
    ++ provider
    ++ "\x27) \x7b\n              window.opener?.postMessage(\n                \x27authorization:"
    ++ provider ++ ":" ++ state ++ ":" ++ content
    ++ "\x27,\n                origin\n              );\n            \x7d\n          \x7d);\n          window.opener?.postMessage(\x27authorizing:"
    ++ provider
    ++ "\x27, \x27*\x27);\n        \x7d)();\n      </script></body></html>\n    "

/-- HTTP response as observed by the client: status, the two headers the
handler sets, and the body. -/
structure HttpResponse where
  status : Nat
  contentType : Option String
  setCookie : Option String
  location : Option String
  body : String
deriving DecidableEq

/-- `secureAttr` of `outputHTML`: empty when `INSECURE_COOKIES === '1'`,
otherwise `; Secure`. -/
def secureAttr (env : Env) : String :=
  if env.INSECURE_COOKIES == "1" then "" else "; Secure"

/-- The CSRF-deleting `Set-Cookie` value emitted by `outputHTML`. -/
def deletionCookie (env : Env) : String :=
  "csrf-token=deleted; HttpOnly; Max-Age=0; Path=/; SameSite=Lax" ++ secureAttr env

/-- `outputHTML`: the response-page renderer shared by every terminal path of
both operations. -/
def outputHTML (opts : OutputHTMLOptions) (env : Env) : HttpResponse :=
  { status := 200
    contentType := some ("text/html;charset=UTF-8")
    setCookie := some (deletionCookie env)
    location := none
    body := pageHTML opts.provider (pageState opts) (contentJSON opts) }

/-! ### Domain allow-list (`escapeRegExp` + wildcard regex) -/

/-- JavaScript whitespace (the set stripped by `String.prototype.trim`):
ASCII whitespace, the line terminators, and the Unicode space separators
(no-break space, ogham space mark, the en-quad..hair-space range, narrow
no-break space, medium mathematical space, ideographic space) plus the
BOM. -/
def isJsSpace (c : Char) : Bool :=
  c == ' ' || (9 ≤ c.toNat && c.toNat ≤ 13) || c.toNat == 160 || c.toNat == 5760
    || (8192 ≤ c.toNat && c.toNat ≤ 8202) || c.toNat == 8232 || c.toNat == 8233
    || c.toNat == 8239 || c.toNat == 8287 || c.toNat == 12288 || c.toNat == 65279

/-- JavaScript line terminators: LF, CR, U+2028 and U+2029.  These are the
characters the regex wildcard `.` does not match when the `s` (dotAll) flag
is absent, as in the allow-list regex. -/
def isLineTerm (c : Char) : Bool :=
  c.toNat == 10 || c.toNat == 13 || c.toNat == 8232 || c.toNat == 8233

/-- JavaScript `str.trim()`. -/
def jsTrim (s : String) : String :=
  String.mk (((s.data.dropWhile isJsSpace).reverse.dropWhile isJsSpace).reverse)

/-- Split a character list at its first `*`, returning the parts before and
after it; `none` when there is no `*`.  This mirrors
`escapeRegExp(entry).replace('\x5c*', '.+')`: `String.replace` with a string
pattern rewrites only the first occurrence, so only the first `*` becomes a
wildcard and every other character (including later `*`s) stays literal. -/
def splitAtFirstStar : List Char → Option (List Char × List Char)
  | [] => none
  | c :: cs =>
    if c == '*' then some ([], cs)
    else (splitAtFirstStar cs).map (fun ps => (c :: ps.1, ps.2))

/-- Match semantics of the anchored allow-list regex
`^escapeRegExp(entry.trim()).replace('\x5c*', '.+')$` applied to `domain`:
without a `*` the entry must equal the domain; with one, the prefix before
the first `*` and the suffix after it are literal and `.+` stands for one or
more characters none of which is a line terminator (JavaScript `.` without
the dotAll flag).  The prefix and suffix lengths are fixed, so the anchored
decomposition of the domain is unique and the backtracking search reduces to
this length-determined split, whose middle is checked against `.`. -/
def entryMatch (entry domain : String) : Bool :=
  let d := domain.data
  match splitAtFirstStar (jsTrim entry).data with
  | none => d == (jsTrim entry).data
  | some ps =>
    ps.1.isPrefixOf d && ps.2.isSuffixOf (d.drop ps.1.length)
      && decide (ps.1.length + ps.2.length < d.length)
      && ((d.drop ps.1.length).take (d.length - ps.1.length - ps.2.length)).all
          (fun c => !(isLineTerm c))

/-- The allow-list semantics in the words of the amended specification: each
entry is a literal string anchored at both ends, except that a single `*`
wildcard matches one or more characters, none of which is a line
terminator. -/
def specEntryMatch (entry domain : String) : Prop :=
  match splitAtFirstStar (jsTrim entry).data with
  | none => domain.data = (jsTrim entry).data
  | some ps => ∃ mid : List Char, mid ≠ [] ∧ (∀ c ∈ mid, isLineTerm c = false) ∧
      domain.data = ps.1 ++ mid ++ ps.2

/-- The allow-list semantics in the original claim's words: the single `*`
wildcard matching one or more arbitrary characters, line terminators
included.  Kept to state the counterexample refuting that reading: the
regex wildcard `.` does not match a line terminator. -/
def specEntryMatchAnyChar (entry domain : String) : Prop :=
  match splitAtFirstStar (jsTrim entry).data with
  | none => domain.data = (jsTrim entry).data
  | some ps => ∃ mid : List Char, mid ≠ [] ∧ domain.data = ps.1 ++ mid ++ ps.2

/-- Helper for `splitCommas`: `acc` holds the reversed characters of the
current field. -/
def splitCommasAux (acc : List Char) : List Char → List String
  | [] => [String.mk acc.reverse]
  | c :: cs =>
    if c == ',' then String.mk acc.reverse :: splitCommasAux [] cs
    else splitCommasAux (c :: acc) cs

/-- JavaScript `str.split(/,/)`: split at every comma, keeping empty
fields (`''.split(/,/)` is `['']`). -/
def splitCommas (s : String) : List String := splitCommasAux [] s.data

/-- The allow-list gate of `handleAuth`: blocked when `ALLOWED_DOMAINS` is
non-empty (truthy) and no comma-separated entry matches the domain. -/
def domainBlocked (allowed : String) (domain : Option String) : Bool :=
  allowed != "" && !((splitCommas allowed).any (fun e => entryMatch e (domain.getD "")))

/-! ### `application/x-www-form-urlencoded` serialization (`URLSearchParams`) -/

/-- Characters kept verbatim by the `URLSearchParams` serializer:
ASCII alphanumerics and `*`, `-`, `.`, `_`. -/
def isUrlKeep (c : Char) : Bool :=
  c.isAlphanum || c == '*' || c == '-' || c == '.' || c == '_'

/-- UTF-8 bytes of a character (as `Nat`s below 256). -/
def utf8Bytes (c : Char) : List Nat :=
  let n := c.toNat
  if n < 128 then [n]
  else if n < 2048 then [192 + n / 64, 128 + n % 64]
  else if n < 65536 then [224 + n / 4096, 128 + n / 64 % 64, 128 + n % 64]
  else [240 + n / 262144, 128 + n / 4096 % 64, 128 + n / 64 % 64, 128 + n % 64]

/-- Percent-encoding of one character (per UTF-8 byte, uppercase hex). -/
def percentEncodeChar (c : Char) : String :=
  String.join ((utf8Bytes c).map (fun b => "%" ++ byteHexUC b))

/-- `URLSearchParams` encoding of one character. -/
def formEncodeChar (c : Char) : String :=
  if isUrlKeep c then String.singleton c
  else if c == ' ' then "+" else percentEncodeChar c

/-- `URLSearchParams` encoding of a character list. -/
def formEncodeList : List Char → String
  | [] => ""
  | c :: cs => formEncodeChar c ++ formEncodeList cs

/-- `URLSearchParams` encoding of a string. -/
def formEncode (s : String) : String := formEncodeList s.data

/-- `new URLSearchParams(pairs).toString()`: `key=value` pairs joined
with `&`, both sides form-encoded. -/
def serializeQuery : List (String × String) → String
  | [] => ""
  | [kv] => formEncode kv.1 ++ "=" ++ formEncode kv.2
  | kv :: rest => formEncode kv.1 ++ "=" ++ formEncode kv.2 ++ "&" ++ serializeQuery rest

/-! ### `handleAuth` (AuthorizationInitiator) -/

/-- Decision-level result of `handleAuth`: every `return` of the source is
either `outputHTML(opts, env)` or the 302 redirect carrying `Location` and
the issuance `Set-Cookie`. -/
inductive AuthResult where
  | page (opts : OutputHTMLOptions)
  | redirect (location : String) (setCookie : String)
deriving DecidableEq

/-- `handleAuth` up to rendering.  `origin` is the request URL's origin,
`provider`/`siteId` the `provider`/`site_id` query parameters, and
`csrfToken` the freshly minted random token. -/
def handleAuthR (env : Env) (origin : String) (provider siteId : Option String)
    (csrfToken : String) : AuthResult :=
  let reqProvider :=
    if supportedProviders.contains (provider.getD "") then provider.getD "" else "unknown"
  if falsyS provider || !(supportedProviders.contains (provider.getD "")) then
    .page { error := some ("Your Git backend is not supported by the authenticator."),
            errorCode := some ("UNSUPPORTED_BACKEND") }
  else if domainBlocked env.ALLOWED_DOMAINS siteId then
    .page { provider := reqProvider,
            error := some ("Your domain is not allowed to use the authenticator."),
            errorCode := some ("UNSUPPORTED_DOMAIN") }
  else
    let p := provider.getD ""
    let cookieProvider := if supportedProviders.contains p then p else "unknown"
    let issuedCookie :=
      "csrf-token=" ++ cookieProvider ++ "_" ++ csrfToken
        ++ "; HttpOnly; Path=/; Max-Age=600; SameSite=Lax; Secure"
    if p == "github" then
      if falsyS env.GITHUB_CLIENT_ID || falsyS env.GITHUB_CLIENT_SECRET then
        .page { provider := reqProvider,
                error := some ("OAuth app client ID or secret is not configured."),
                errorCode := some ("MISCONFIGURED_CLIENT") }
      else
        .redirect
          ("https://" ++ env.GITHUB_HOSTNAME ++ "/login/oauth/authorize?"
            ++ serializeQuery
              [("client_id", env.GITHUB_CLIENT_ID.getD ""),
               ("scope", "repo,user"),
               ("state", csrfToken)])
          issuedCookie
    else if p == "gitlab" then
      if falsyS env.GITLAB_CLIENT_ID || falsyS env.GITLAB_CLIENT_SECRET then
        .page { provider := reqProvider,
                error := some ("OAuth app client ID or secret is not configured."),
                errorCode := some ("MISCONFIGURED_CLIENT") }
      else
        .redirect
          ("https://" ++ env.GITLAB_HOSTNAME ++ "/oauth/authorize?"
            ++ serializeQuery
              [("client_id", env.GITLAB_CLIENT_ID.getD ""),
               ("redirect_uri", origin ++ "/callback"),
               ("response_type", "code"),
               ("scope", "api"),
               ("state", csrfToken)])
          issuedCookie
    else if p == "bitbucket" then
      .page { provider := reqProvider,
              error := some ("Bitbucket OAuth is not yet supported."),
              errorCode := some ("UNSUPPORTED_BACKEND") }
    else
      .redirect ("") issuedCookie

/-- Rendering of an `AuthResult` into the HTTP response (`new Response('',
\x7b status: 302, headers \x7d)` for the redirect, `outputHTML` otherwise). -/
def renderAuth (r : AuthResult) (env : Env) : HttpResponse :=
  match r with
  | .page opts => outputHTML opts env
  | .redirect loc ck =>
    { status := 302, contentType := none, setCookie := some ck,
      location := some loc, body := "" }

/-- `handleAuth` at the HTTP level. -/
def handleAuth (env : Env) (origin : String) (provider siteId : Option String)
    (csrfToken : String) : HttpResponse :=
  renderAuth (handleAuthR env origin provider siteId csrfToken) env

/-! ### The CSRF cookie regex `\bcsrf-token=([a-z-]+?)_([0-9a-f]\x7b32\x7d)\b` -/

/-- The literal part of the cookie pattern. -/
def csrfLit : List Char := ("csrf-token=").data

/-- Parse the cookie pattern (without the boundary assertions) at the head of
`l`: the literal `csrf-token=`, a non-empty run of `[a-z-]` (the lazy group
is forced to the whole run because its terminator `_` is outside the class),
`_`, then exactly 32 `[0-9a-f]` characters.  Returns the provider group, the
token group and the rest of the input. -/
def shapeParse (l : List Char) : Option (List Char × List Char × List Char) :=
  if csrfLit.isPrefixOf l then
    let rest := l.drop csrfLit.length
    let prov := rest.takeWhile isProvChar
    let rest1 := rest.dropWhile isProvChar
    if prov.isEmpty then none
    else
      match rest1 with
      | [] => none
      | c :: rest2 =>
        if c == '_' then
          let tok := rest2.take 32
          if tok.length == 32 && tok.all isHexLC then some (prov, tok, rest2.drop 32)
          else none
        else none
  else none

/-- The pattern (without boundaries) matches at the head of `l`. -/
def shapeAt (l : List Char) : Bool := (shapeParse l).isSome

/-- The pattern (without boundaries) matches at some position of `l`. -/
def hasShape : List Char → Bool
  | [] => false
  | c :: cs => shapeAt (c :: cs) || hasShape cs

/-- Try the full pattern at the head of `l`: `shapeParse` plus the trailing
`\b` (next character, if any, is not a word character).  The leading `\b` is
checked by the caller. -/
def tryMatchCsrf (l : List Char) : Option (String × String) :=
  match shapeParse l with
  | none => none
  | some ptr =>
    match ptr.2.2 with
    | [] => some (String.mk ptr.1, String.mk ptr.2.1)
    | c :: _ => if isWordChar c then none else some (String.mk ptr.1, String.mk ptr.2.1)

/-- Leftmost-match scan of the regex over the input; `prevW` records whether
the previous character is a word character (for the leading `\b`; the first
pattern character `c` is a word character, so the boundary holds exactly when
the previous character is not one). -/
def scanCsrf : Bool → List Char → Option (String × String)
  | _, [] => none
  | prevW, c :: cs =>
    match (if prevW then none else tryMatchCsrf (c :: cs)) with
    | some r => some r
    | none => scanCsrf (isWordChar c) cs

/-- `headers.get('Cookie')?.match(/\bcsrf-token=([a-z-]+?)_([0-9a-f]\x7b32\x7d)\b/)`,
returning the two capture groups. -/
def parseCsrfCookie (h : String) : Option (String × String) :=
  scanCsrf false h.data

/-! ### `handleCallback` (CallbackExchanger) -/

/-- Observable outcome of the outbound token-exchange `fetch`:
`noResponse` when the `fetch` throws (caught, leaving `response` undefined),
`badJson` when `response.json()` throws, and `json access_token error` for a
parsed body with its two optional fields. -/
inductive FetchOutcome where
  | noResponse
  | badJson
  | json (access_token : Option String) (error : Option String)
deriving DecidableEq

/-- The first three checks of `handleCallback` (cookie provider, `code`/
`state` presence, CSRF comparison), returning the error page options on
failure and the raw cookie provider and token on success. -/
def callbackGate (code state cookieHeader : Option String) :
    Except OutputHTMLOptions (String × String) :=
  let pm := cookieHeader.bind parseCsrfCookie
  let provider := pm.map Prod.fst
  let csrfToken := pm.map Prod.snd
  let cookieProvider :=
    if supportedProviders.contains (provider.getD "") then provider.getD "" else "unknown"
  if falsyS provider || !(supportedProviders.contains (provider.getD "")) then
    .error { error := some ("Your Git backend is not supported by the authenticator."),
             errorCode := some ("UNSUPPORTED_BACKEND") }
  else if falsyS code || falsyS state then
    .error { provider := cookieProvider,
             error := some ("Failed to receive an authorization code. Please try again later."),
             errorCode := some ("AUTH_CODE_REQUEST_FAILED") }
  else if falsyS csrfToken || !(state.getD "" == csrfToken.getD "") then
    .error { provider := cookieProvider,
             error := some ("Potential CSRF attack detected. Authentication flow aborted."),
             errorCode := some ("CSRF_DETECTED") }
  else
    .ok (provider.getD "", csrfToken.getD "")

/-- The token endpoint the exchange posts to (GitHub leg). -/
def githubTokenURL (env : Env) : String :=
  "https://" ++ env.GITHUB_HOSTNAME ++ "/login/oauth/access_token"

/-- The token endpoint the exchange posts to (GitLab leg). -/
def gitlabTokenURL (env : Env) : String :=
  "https://" ++ env.GITLAB_HOSTNAME ++ "/oauth/token"

/-- JSON body of the GitHub token-exchange request. -/
def githubTokenBody (env : Env) (code : String) : List (String × String) :=
  [("code", code),
   ("client_id", env.GITHUB_CLIENT_ID.getD ""),
   ("client_secret", env.GITHUB_CLIENT_SECRET.getD "")]

/-- JSON body of the GitLab token-exchange request. -/
def gitlabTokenBody (env : Env) (origin code : String) : List (String × String) :=
  [("code", code),
   ("client_id", env.GITLAB_CLIENT_ID.getD ""),
   ("client_secret", env.GITLAB_CLIENT_SECRET.getD ""),
   ("grant_type", "authorization_code"),
   ("redirect_uri", origin ++ "/callback")]

/-- The credential checks, the Bitbucket short-circuit, and the handling of
the token-exchange outcome (the part of `handleCallback` after the gate).
`provider` is the raw cookie provider, already known to be supported. -/
def callbackExchange (env : Env) (origin provider code : String)
    (fetchRes : FetchOutcome) : OutputHTMLOptions :=
  let cookieProvider := if supportedProviders.contains provider then provider else "unknown"
  if provider == "github"
      && (falsyS env.GITHUB_CLIENT_ID || falsyS env.GITHUB_CLIENT_SECRET) then
    { provider := cookieProvider,
      error := some ("OAuth app client ID or secret is not configured."),
      errorCode := some ("MISCONFIGURED_CLIENT") }
  else if provider == "gitlab"
      && (falsyS env.GITLAB_CLIENT_ID || falsyS env.GITLAB_CLIENT_SECRET) then
    { provider := cookieProvider,
      error := some ("OAuth app client ID or secret is not configured."),
      errorCode := some ("MISCONFIGURED_CLIENT") }
  else if provider == "bitbucket" then
    { provider := cookieProvider,
      error := some ("Bitbucket OAuth is not yet supported."),
      errorCode := some ("UNSUPPORTED_BACKEND") }
  else
    match fetchRes with
    | .noResponse =>
      { provider := cookieProvider,
        error := some ("Failed to request an access token. Please try again later."),
        errorCode := some ("TOKEN_REQUEST_FAILED") }
    | .badJson =>
      { provider := cookieProvider,
        error := some ("Server responded with malformed data. Please try again later."),
        errorCode := some ("MALFORMED_RESPONSE") }
    | .json at_ err =>
      { provider := cookieProvider,
        token := some (at_.getD ""),
        error := some (err.getD "") }

/-- `handleCallback` up to rendering: the gate followed by the exchange
stage. -/
def handleCallbackR (env : Env) (origin : String) (code state cookieHeader : Option String)
    (fetchRes : FetchOutcome) : OutputHTMLOptions :=
  match callbackGate code state cookieHeader with
  | .error opts => opts
  | .ok pt => callbackExchange env origin pt.1 (code.getD "") fetchRes

/-- `handleCallback` at the HTTP level: every path renders through
`outputHTML`. -/
def handleCallback (env : Env) (origin : String) (code state cookieHeader : Option String)
    (fetchRes : FetchOutcome) : HttpResponse :=
  outputHTML (handleCallbackR env origin code state cookieHeader fetchRes) env

/-! ### Supporting lemmas -/

theorem isHexLC_mem {c : Char} (h : isHexLC c = true) : c ∈ hexLcChars := by
  simpa [isHexLC] using h

theorem isHexLC_isUrlKeep {c : Char} (h : isHexLC c = true) : isUrlKeep c = true := by
  have hall : hexLcChars.all isUrlKeep = true := by decide
  simpa using List.all_eq_true.mp hall c (isHexLC_mem h)

theorem formEncodeList_keep (l : List Char) (h : ∀ c ∈ l, isUrlKeep c = true) :
    formEncodeList l = String.mk l := by
  induction l with
  | nil => rfl
  | cons c cs ih =>
    have hc : isUrlKeep c = true := h c (by simp)
    have ihh := ih (fun x hx => h x (by simp [hx]))
    rw [formEncodeList, formEncodeChar, if_pos hc, ihh]
    apply String.ext
    simp [String.singleton, String.data_append]

theorem formEncode_hex (t : String) (h : t.data.all isHexLC = true) :
    formEncode t = t := by
  have hk : ∀ c ∈ t.data, isUrlKeep c = true := fun c hc =>
    isHexLC_isUrlKeep (by simpa using List.all_eq_true.mp h c hc)
  rw [formEncode, formEncodeList_keep t.data hk]

theorem isHex32_parts {t : String} (h : isHex32 t = true) :
    t.length = 32 ∧ t.data.all isHexLC = true := by
  simpa [isHex32, Bool.and_eq_true] using h

theorem entryMatch_iff_spec (entry domain : String) :
    entryMatch entry domain = true ↔ specEntryMatch entry domain := by
  unfold entryMatch specEntryMatch
  cases h : splitAtFirstStar (jsTrim entry).data with
  | none => simp
  | some ps =>
    obtain ⟨pre, suf⟩ := ps
    simp only [Bool.and_eq_true, decide_eq_true_eq]
    constructor
    · rintro ⟨⟨⟨h1, h2⟩, h3⟩, h4⟩
      obtain ⟨t, ht⟩ := List.isPrefixOf_iff_prefix.mp h1
      have hdrop : domain.data.drop pre.length = t := by
        rw [← ht, List.drop_left]
      rw [hdrop] at h2 h4
      obtain ⟨m, hm⟩ := List.isSuffixOf_iff_suffix.mp h2
      have hmlen : domain.data.length - pre.length - suf.length = m.length := by
        rw [← ht, ← hm]
        simp only [List.length_append]
        omega
      have hmid : t.take (domain.data.length - pre.length - suf.length) = m := by
        rw [hmlen, ← hm, List.take_left]
      rw [hmid] at h4
      refine ⟨m, ?_, ?_, ?_⟩
      · intro hnil
        subst hnil
        simp only [List.nil_append] at hm
        subst hm
        rw [← ht] at h3
        simp at h3
      · intro c hc
        simpa using List.all_eq_true.mp h4 c hc
      · rw [← ht, ← hm, List.append_assoc]
    · rintro ⟨mid, hne, hnl, hd⟩
      have hdrop : domain.data.drop pre.length = mid ++ suf := by
        rw [hd, List.append_assoc, List.drop_left]
      refine ⟨⟨⟨?_, ?_⟩, ?_⟩, ?_⟩
      · exact List.isPrefixOf_iff_prefix.mpr ⟨mid ++ suf, by rw [hd, List.append_assoc]⟩
      · rw [hdrop]
        exact List.isSuffixOf_iff_suffix.mpr ⟨mid, rfl⟩
      · have hm : 0 < mid.length := List.length_pos.mpr hne
        rw [hd]
        simp [List.length_append]
        omega
      · have hmlen : domain.data.length - pre.length - suf.length = mid.length := by
          rw [hd]
          simp only [List.length_append]
          omega
        rw [hdrop, hmlen, List.take_left]
        exact List.all_eq_true.mpr (fun c hc => by simpa using hnl c hc)

theorem shapeParse_groups {l : List Char} {prov tok rest : List Char}
    (h : shapeParse l = some (prov, tok, rest)) :
    prov ≠ [] ∧ (∀ c ∈ prov, isProvChar c = true) ∧ tok.length = 32 ∧
      tok.all isHexLC = true := by
  unfold shapeParse at h
  split at h
  case isFalse => cases h
  case isTrue hpre =>
    simp only [] at h
    split at h
    case isTrue => cases h
    case isFalse hempty =>
      split at h
      case h_1 => cases h
      case h_2 c rest2 heq =>
        split at h
        case isFalse => cases h
        case isTrue hc =>
          split at h
          case isFalse => cases h
          case isTrue hguard =>
            simp only [Option.some.injEq, Prod.mk.injEq] at h
            obtain ⟨h1, h2, h3⟩ := h
            subst h1
            subst h2
            rw [Bool.and_eq_true, beq_iff_eq] at hguard
            refine ⟨?_, ?_, hguard.1, hguard.2⟩
            · intro hnil
              rw [hnil] at hempty
              simp at hempty
            · intro x hx
              exact List.mem_takeWhile_imp hx

theorem tryMatchCsrf_eq {l : List Char} {p t : String}
    (h : tryMatchCsrf l = some (p, t)) :
    ∃ prov tok rest, shapeParse l = some (prov, tok, rest) ∧
      p = String.mk prov ∧ t = String.mk tok := by
  unfold tryMatchCsrf at h
  cases hs : shapeParse l with
  | none => rw [hs] at h; cases h
  | some ptr =>
    rw [hs] at h
    obtain ⟨prov, tok, rest⟩ := ptr
    refine ⟨prov, tok, rest, rfl, ?_⟩
    cases rest with
    | nil =>
      simp only [Option.some.injEq, Prod.mk.injEq] at h
      exact ⟨h.1.symm, h.2.symm⟩
    | cons c cs =>
      simp only [] at h
      split at h
      case isTrue => cases h
      case isFalse =>
        simp only [Option.some.injEq, Prod.mk.injEq] at h
        exact ⟨h.1.symm, h.2.symm⟩

theorem scanCsrf_sound (l : List Char) : ∀ (w : Bool) (p t : String),
    scanCsrf w l = some (p, t) →
    hasShape l = true ∧ p.data ≠ [] ∧ (∀ c ∈ p.data, isProvChar c = true) ∧
      t.data.length = 32 ∧ t.data.all isHexLC = true := by
  induction l with
  | nil => intro w p t h; simp [scanCsrf] at h
  | cons c cs ih =>
    intro w p t h
    rw [scanCsrf] at h
    cases hw : (if w then none else tryMatchCsrf (c :: cs)) with
    | some r =>
      rw [hw] at h
      simp only [] at h
      injection h with h1
      subst h1
      have hw' : tryMatchCsrf (c :: cs) = some (p, t) := by
        cases w with
        | true => simp at hw
        | false => simpa using hw
      obtain ⟨prov, tok, rest, hsp, hp1, ht1⟩ := tryMatchCsrf_eq hw'
      obtain ⟨hne, hprops, hlen, hall⟩ := shapeParse_groups hsp
      have hAt : shapeAt (c :: cs) = true := by simp [shapeAt, hsp]
      subst hp1
      subst ht1
      exact ⟨by simp [hasShape, hAt], hne, hprops, hlen, hall⟩
    | none =>
      rw [hw] at h
      simp only [] at h
      obtain ⟨h1, hrest⟩ := ih (isWordChar c) p t h
      exact ⟨by simp [hasShape, h1], hrest⟩

theorem parseCsrfCookie_sound {h : String} {p t : String}
    (hp : parseCsrfCookie h = some (p, t)) :
    hasShape h.data = true ∧ p ≠ "" ∧ (∀ c ∈ p.data, isProvChar c = true) ∧
      t.length = 32 ∧ t.data.all isHexLC = true := by
  obtain ⟨h1, h2, h3, h4, h5⟩ := scanCsrf_sound h.data false p t hp
  refine ⟨h1, ?_, h3, h4, h5⟩
  intro hpe
  subst hpe
  exact h2 rfl

theorem parseCsrfCookie_of_no_shape {h : String} (hs : hasShape h.data = false) :
    parseCsrfCookie h = none := by
  cases hp : parseCsrfCookie h with
  | none => rfl
  | some r =>
    obtain ⟨p, t⟩ := r
    have := (scanCsrf_sound h.data false p t hp).1
    rw [this] at hs
    cases hs

theorem mem_supported_facts {p : String} (hp : p ∈ supportedProviders) :
    supportedProviders.contains p = true ∧ (p == "") = false := by
  fin_cases hp <;> exact ⟨rfl, rfl⟩

/-! ### Concrete fixtures used by counterexamples and witnesses -/

/-- A 32-character lowercase-hex token (a possible
`crypto.randomUUID().replaceAll('-', '')` value). -/
def tok32 : String := "0123456789abcdef0123456789abcdef"

/-- An insecure-mode configuration (`INSECURE_COOKIES=1`) with GitHub
credentials and no allow-list restriction. -/
def envInsecure : Env :=
  { NODE_ENV := "development", HOST := "localhost", PORT := 3000,
    ALLOWED_DOMAINS := "",
    GITHUB_CLIENT_ID := some ("gh-id"), GITHUB_CLIENT_SECRET := some ("gh-secret"),
    GITHUB_HOSTNAME := "github.com",
    GITLAB_CLIENT_ID := none, GITLAB_CLIENT_SECRET := none,
    GITLAB_HOSTNAME := "gitlab.com",
    BITBUCKET_CLIENT_ID := none, BITBUCKET_CLIENT_SECRET := none,
    BITBUCKET_HOSTNAME := "bitbucket.com",
    INSECURE_COOKIES := "1", LOG_LEVEL := "info" }

/-- A secure-mode configuration with GitHub credentials and the allow-list
`*.example.com`. -/
def envAllow : Env :=
  { NODE_ENV := "production", HOST := "localhost", PORT := 3000,
    ALLOWED_DOMAINS := "*.example.com",
    GITHUB_CLIENT_ID := some ("gh-id"), GITHUB_CLIENT_SECRET := some ("gh-secret"),
    GITHUB_HOSTNAME := "github.com",
    GITLAB_CLIENT_ID := none, GITLAB_CLIENT_SECRET := none,
    GITLAB_HOSTNAME := "gitlab.com",
    BITBUCKET_CLIENT_ID := none, BITBUCKET_CLIENT_SECRET := none,
    BITBUCKET_HOSTNAME := "bitbucket.com",
    INSECURE_COOKIES := "0", LOG_LEVEL := "info" }

/-- A well-formed GitHub CSRF cookie header for `tok32`. -/
def cookieGH : String := "csrf-token=github_" ++ tok32

/-! ### Claim theorems -/

/-- C2 (code bug): the specification says the issuance cookie carries
`Secure` only unless the insecure-cookie override is configured, and in
particular omits `Secure` when `INSECURE_COOKIES=1`.  The code appends
`Secure` to the issuance `Set-Cookie` unconditionally: under the insecure
configuration `envInsecure`, the redirect's cookie still ends in
`; Secure` (while the deletion cookie of the same configuration, which does
honour the override, omits it). -/
theorem c2_issuance_cookie_always_secure :
    envInsecure.INSECURE_COOKIES = "1" ∧
    handleAuthR envInsecure ("https://auth.example.com") (some ("github"))
        (some ("a.example.com")) tok32
      = .redirect
          ("https://github.com/login/oauth/authorize?client_id=gh-id&scope=repo%2Cuser&state=0123456789abcdef0123456789abcdef")
          ("csrf-token=github_0123456789abcdef0123456789abcdef; HttpOnly; Path=/; Max-Age=600; SameSite=Lax; Secure") ∧
    strContains
      ("csrf-token=github_0123456789abcdef0123456789abcdef; HttpOnly; Path=/; Max-Age=600; SameSite=Lax; Secure")
      ("; Secure") := by
  refine ⟨rfl, by decide, ?_⟩
  exact ⟨"csrf-token=github_0123456789abcdef0123456789abcdef; HttpOnly; Path=/; Max-Age=600; SameSite=Lax", "", by decide⟩

/-- C3 (counterexample): the claim says the deletion cookie applies "the
same Secure/insecure-mode policy as issuance".  Under `envInsecure`
(`INSECURE_COOKIES=1`) the deletion cookie emitted by `outputHTML` omits
`Secure` while the issuance cookie of the very same configuration carries
`; Secure`, so the two legs do not follow the same policy. -/
theorem c3_secure_policy_differs_from_issuance :
    envInsecure.INSECURE_COOKIES = "1" ∧
    deletionCookie envInsecure
      = "csrf-token=deleted; HttpOnly; Max-Age=0; Path=/; SameSite=Lax" ∧
    (outputHTML {} envInsecure).setCookie
      = some ("csrf-token=deleted; HttpOnly; Max-Age=0; Path=/; SameSite=Lax") ∧
    ("; Secure").data.isSuffixOf (deletionCookie envInsecure).data = false ∧
    handleAuthR envInsecure ("https://auth.example.com") (some ("github"))
        (some ("a.example.com")) tok32
      = .redirect
          ("https://github.com/login/oauth/authorize?client_id=gh-id&scope=repo%2Cuser&state=0123456789abcdef0123456789abcdef")
          ("csrf-token=github_0123456789abcdef0123456789abcdef; HttpOnly; Path=/; Max-Age=600; SameSite=Lax; Secure") ∧
    ("; Secure").data.isSuffixOf
      ("csrf-token=github_0123456789abcdef0123456789abcdef; HttpOnly; Path=/; Max-Age=600; SameSite=Lax; Secure").data = true := by
  exact ⟨rfl, by decide, by decide, by decide, by decide, by decide⟩

/-! ### Gate evaluation lemmas -/

theorem deletionCookie_hasMaxAge0 (env : Env) :
    strContains (deletionCookie env) ("Max-Age=0") := by
  refine ⟨"csrf-token=deleted; HttpOnly; ",
    "; Path=/; SameSite=Lax" ++ secureAttr env, ?_⟩
  have h1 : ("csrf-token=deleted; HttpOnly; " ++ "Max-Age=0" ++ "; Path=/; SameSite=Lax" : String)
      = "csrf-token=deleted; HttpOnly; Max-Age=0; Path=/; SameSite=Lax" := by decide
  rw [deletionCookie, ← h1]
  simp only [String.append_assoc]

theorem parseCsrfCookie_token_ne {h p T : String}
    (hparse : parseCsrfCookie h = some (p, T)) : T ≠ "" := by
  intro he
  subst he
  have := (parseCsrfCookie_sound hparse).2.2.2.1
  simp at this

theorem callbackGate_unsupported (code state cookieHeader : Option String)
    (hcb : supportedProviders.contains
      (((cookieHeader.bind parseCsrfCookie).map Prod.fst).getD "") = false) :
    callbackGate code state cookieHeader
      = .error { error := some ("Your Git backend is not supported by the authenticator."),
                 errorCode := some ("UNSUPPORTED_BACKEND") } := by
  rw [callbackGate]
  simp only [hcb]
  simp

theorem callbackGate_authfail (h p T : String) (code state : Option String)
    (hparse : parseCsrfCookie h = some (p, T)) (hp : p ∈ supportedProviders)
    (hmiss : falsyS code = true ∨ falsyS state = true) :
    callbackGate code state (some h)
      = .error { provider := p,
                 error := some ("Failed to receive an authorization code. Please try again later."),
                 errorCode := some ("AUTH_CODE_REQUEST_FAILED") } := by
  obtain ⟨hc, hne⟩ := mem_supported_facts hp
  rw [callbackGate]
  simp only [Option.some_bind, hparse, Option.map_some', Option.getD_some, hc, falsyS,
    Option.getD_some, hne]
  rcases hmiss with hm | hm <;> simp_all [falsyS]

theorem callbackGate_ok (h p T c : String)
    (hparse : parseCsrfCookie h = some (p, T)) (hp : p ∈ supportedProviders)
    (hc : c ≠ "") :
    callbackGate (some c) (some T) (some h) = .ok (p, T) := by
  obtain ⟨hcont, hne⟩ := mem_supported_facts hp
  have hT : T ≠ "" := parseCsrfCookie_token_ne hparse
  rw [callbackGate]
  simp only [Option.some_bind, hparse, Option.map_some', Option.getD_some, hcont, falsyS]
  simp [hne, hc, hT]

theorem callbackGate_csrf (h p T c s : String)
    (hparse : parseCsrfCookie h = some (p, T)) (hp : p ∈ supportedProviders)
    (hc : c ≠ "") (hs : s ≠ "") (hne : s ≠ T) :
    callbackGate (some c) (some s) (some h)
      = .error { provider := p,
                 error := some ("Potential CSRF attack detected. Authentication flow aborted."),
                 errorCode := some ("CSRF_DETECTED") } := by
  obtain ⟨hcont, hpne⟩ := mem_supported_facts hp
  rw [callbackGate]
  simp only [Option.some_bind, hparse, Option.map_some', Option.getD_some, hcont, falsyS]
  simp [hpne, hc, hs, hne]

/-- C1: for a callback whose CSRF cookie parses to a recognized provider `p`
and token `T`, with `code` and `state` both carrying values, the CSRF check
passes exactly when `state = T`: then the gate returns `ok (p, T)` and the
flow continues into credential resolution (`callbackExchange`); for any
present `state` value other than `T` the rendered page carries errorCode
`CSRF_DETECTED`. -/
theorem c1_csrf_verification (env : Env) (origin h p T c s : String) (fr : FetchOutcome)
    (hparse : parseCsrfCookie h = some (p, T))
    (hp : p ∈ supportedProviders)
    (hc : c ≠ "") (hs : s ≠ "") :
    (s = T →
      callbackGate (some c) (some s) (some h) = .ok (p, T) ∧
      handleCallbackR env origin (some c) (some s) (some h) fr
        = callbackExchange env origin p c fr) ∧
    (s ≠ T →
      callbackGate (some c) (some s) (some h)
        = .error { provider := p,
                   error := some ("Potential CSRF attack detected. Authentication flow aborted."),
                   errorCode := some ("CSRF_DETECTED") } ∧
      handleCallbackR env origin (some c) (some s) (some h) fr
        = { provider := p,
            error := some ("Potential CSRF attack detected. Authentication flow aborted."),
            errorCode := some ("CSRF_DETECTED") }) := by
  constructor
  · intro hst
    subst hst
    have hg := callbackGate_ok h p s c hparse hp hc
    refine ⟨hg, ?_⟩
    rw [handleCallbackR, hg]
    rfl
  · intro hne
    have hg := callbackGate_csrf h p T c s hparse hp hc hs hne
    refine ⟨hg, ?_⟩
    rw [handleCallbackR, hg]

/-- C1 witness: concrete round trip for the `github` cookie `cookieGH`
with token `tok32`: `state = tok32` passes the gate, `state = "wrong"`
yields `CSRF_DETECTED`. -/
theorem c1_csrf_verification_witness :
    parseCsrfCookie cookieGH = some ("github", tok32) ∧
    "github" ∈ supportedProviders ∧
    callbackGate (some ("abc")) (some (tok32)) (some (cookieGH)) = .ok ("github", tok32) ∧
    (handleCallbackR envAllow ("https://o") (some ("abc")) (some ("wrong"))
        (some (cookieGH)) .noResponse).errorCode = some ("CSRF_DETECTED") := by
  have h := c1_csrf_verification envAllow ("https://o") cookieGH ("github") tok32
    ("abc") ("wrong") .noResponse (by decide) (by decide) (by decide) (by decide)
  have h2 := c1_csrf_verification envAllow ("https://o") cookieGH ("github") tok32
    ("abc") tok32 .noResponse (by decide) (by decide) (by decide) (by decide)
  refine ⟨by decide, by decide, (h2.1 rfl).1, ?_⟩
  rw [(h.2 (by decide)).2]

/-- C4: with a recognized cookie provider, a missing `code` or missing
`state` renders errorCode `AUTH_CODE_REQUEST_FAILED` together with the
`Max-Age=0` deletion cookie, and this happens before the CSRF comparison:
the result is never `CSRF_DETECTED`. -/
theorem c4_missing_code_or_state (env : Env) (origin h p T : String)
    (code state : Option String) (fr : FetchOutcome)
    (hparse : parseCsrfCookie h = some (p, T))
    (hp : p ∈ supportedProviders)
    (hmiss : code = none ∨ state = none) :
    handleCallbackR env origin code state (some h) fr
      = { provider := p,
          error := some ("Failed to receive an authorization code. Please try again later."),
          errorCode := some ("AUTH_CODE_REQUEST_FAILED") } ∧
    (handleCallback env origin code state (some h) fr).setCookie
      = some (deletionCookie env) ∧
    strContains (deletionCookie env) ("Max-Age=0") ∧
    (handleCallbackR env origin code state (some h) fr).errorCode
      ≠ some ("CSRF_DETECTED") := by
  have hm : falsyS code = true ∨ falsyS state = true := by
    rcases hmiss with hm | hm <;> subst hm
    · exact Or.inl rfl
    · exact Or.inr rfl
  have hg := callbackGate_authfail h p T code state hparse hp hm
  have h1 : handleCallbackR env origin code state (some h) fr
      = { provider := p,
          error := some ("Failed to receive an authorization code. Please try again later."),
          errorCode := some ("AUTH_CODE_REQUEST_FAILED") } := by
    rw [handleCallbackR, hg]
  refine ⟨h1, rfl, deletionCookie_hasMaxAge0 env, ?_⟩
  rw [h1]
  simp

/-- C4 witness: `GET /callback?code=abc` (no `state`) with the valid cookie
`cookieGH` yields `AUTH_CODE_REQUEST_FAILED`. -/
theorem c4_missing_code_or_state_witness :
    parseCsrfCookie cookieGH = some ("github", tok32) ∧
    "github" ∈ supportedProviders ∧
    (handleCallbackR envAllow ("https://o") (some ("abc")) none
        (some (cookieGH)) .noResponse).errorCode = some ("AUTH_CODE_REQUEST_FAILED") := by
  have h := c4_missing_code_or_state envAllow ("https://o") cookieGH ("github") tok32
    (some ("abc")) none .noResponse (by decide) (by decide) (Or.inr rfl)
  refine ⟨by decide, by decide, ?_⟩
  rw [h.1]

/-- C3 (amended): every response produced by `outputHTML`, on every success
and error path of both operations, has `Content-Type: text/html;charset=UTF-8`
and a `Set-Cookie` deleting the `csrf-token` cookie with `Max-Age=0`, with
`Secure` appended unless `INSECURE_COOKIES=1`.  (Amended: the deletion cookie
follows its own Secure/insecure-mode policy; the issuance cookie, by
contrast, always appends `Secure`.) -/
theorem c3_renderer_headers (opts : OutputHTMLOptions) (env : Env)
    (origin : String) (code state cookieHeader provider siteId : Option String)
    (tok : String) (fr : FetchOutcome) :
    (outputHTML opts env).contentType = some ("text/html;charset=UTF-8") ∧
    (outputHTML opts env).setCookie = some (deletionCookie env) ∧
    deletionCookie env
      = "csrf-token=deleted; HttpOnly; Max-Age=0; Path=/; SameSite=Lax" ++ secureAttr env ∧
    secureAttr env = (if env.INSECURE_COOKIES == "1" then "" else "; Secure") ∧
    strContains (deletionCookie env) ("Max-Age=0") ∧
    (handleCallback env origin code state cookieHeader fr).contentType
      = some ("text/html;charset=UTF-8") ∧
    (handleCallback env origin code state cookieHeader fr).setCookie
      = some (deletionCookie env) ∧
    (∀ o2, handleAuthR env origin provider siteId tok = .page o2 →
      (handleAuth env origin provider siteId tok).contentType
          = some ("text/html;charset=UTF-8") ∧
      (handleAuth env origin provider siteId tok).setCookie
          = some (deletionCookie env)) := by
  refine ⟨rfl, rfl, rfl, rfl, deletionCookie_hasMaxAge0 env, rfl, rfl, ?_⟩
  intro o2 h2
  rw [handleAuth, h2]
  exact ⟨rfl, rfl⟩

/-- C3 witness: concrete instantiation of the renderer-header theorem under
the insecure configuration, including a page-rendering `handleAuth` path. -/
theorem c3_renderer_headers_witness :
    (outputHTML {} envInsecure).contentType = some ("text/html;charset=UTF-8") ∧
    handleAuthR envInsecure ("https://o") none none tok32
      = .page { error := some ("Your Git backend is not supported by the authenticator."),
                errorCode := some ("UNSUPPORTED_BACKEND") } ∧
    (handleAuth envInsecure ("https://o") none none tok32).setCookie
      = some (deletionCookie envInsecure) := by
  have h := c3_renderer_headers {} envInsecure ("https://o") none none none none none
    tok32 .noResponse
  refine ⟨h.1, by decide, ?_⟩
  exact (h.2.2.2.2.2.2.2
    { error := some ("Your Git backend is not supported by the authenticator."),
      errorCode := some ("UNSUPPORTED_BACKEND") } (by decide)).2

/-- `handleAuthR` produced the `UNSUPPORTED_DOMAIN` error page. -/
def rejectedForDomain (r : AuthResult) : Prop :=
  ∃ o, r = .page o ∧ o.errorCode = some ("UNSUPPORTED_DOMAIN")

theorem handleAuthR_unsupported_domain (env : Env) (origin p : String)
    (siteId : Option String) (tok : String) (hp : p ∈ supportedProviders) :
    rejectedForDomain (handleAuthR env origin (some p) siteId tok)
      ↔ domainBlocked env.ALLOWED_DOMAINS siteId = true := by
  constructor
  · rintro ⟨o, ho, hcode⟩
    by_contra hdb
    have hdb' : domainBlocked env.ALLOWED_DOMAINS siteId = false := by
      cases hv : domainBlocked env.ALLOWED_DOMAINS siteId
      · rfl
      · exact absurd hv hdb
    fin_cases hp
    · rw [handleAuthR] at ho
      simp +decide [hdb'] at ho
      split at ho
      · injection ho with h2
        subst h2
        simp at hcode
      · exact AuthResult.noConfusion ho
    · rw [handleAuthR] at ho
      simp +decide [hdb'] at ho
      split at ho
      · injection ho with h2
        subst h2
        simp at hcode
      · exact AuthResult.noConfusion ho
    · rw [handleAuthR] at ho
      simp +decide [hdb'] at ho
      subst ho
      simp at hcode
  · intro hdb
    refine ⟨{ provider := p,
              error := some ("Your domain is not allowed to use the authenticator."),
              errorCode := some ("UNSUPPORTED_DOMAIN") }, ?_, rfl⟩
    fin_cases hp <;> simp +decide [handleAuthR, hdb]

/-- C5 (counterexample): the claim reads the single `*` wildcard as
matching "one or more characters", with no exclusion
(`specEntryMatchAnyChar`).  Under that reading the domain
`a\nb.example.com` (reachable as `site_id=a%0Ab.example.com`) matches the
allow-list entry `*.example.com`, yet the regex wildcard `.` does not match
the line feed, so the code rejects this very request with
`UNSUPPORTED_DOMAIN` instead of letting it proceed. -/
theorem c5_wildcard_line_terminator_counterexample :
    specEntryMatchAnyChar ("*.example.com") ("a\nb.example.com") ∧
    envAllow.ALLOWED_DOMAINS = "*.example.com" ∧
    entryMatch ("*.example.com") ("a\nb.example.com") = false ∧
    handleAuthR envAllow ("https://o") (some ("github")) (some ("a\nb.example.com")) tok32
      = .page { provider := "github",
                error := some ("Your domain is not allowed to use the authenticator."),
                errorCode := some ("UNSUPPORTED_DOMAIN") } := by
  refine ⟨?_, rfl, by decide, by decide⟩
  exact ⟨("a\nb").data, by decide, by decide⟩

/-- C5 (amended): for a known provider, when a non-empty allow-list is
configured the request proceeds (is not rejected with `UNSUPPORTED_DOMAIN`)
exactly when the target domain matches at least one comma-separated entry
under the literal-anchored semantics with a single `*` wildcard standing for
one or more characters none of which is a line terminator — JavaScript `.`
semantics (`specEntryMatch`); an empty allow-list permits any domain.
Concretely, `site_id=evil.com` fails allow-list `*.example.com` with
`UNSUPPORTED_DOMAIN` while `site_id=a.example.com` proceeds to the
redirect. -/
theorem c5_allowlist_semantics (env : Env) (origin p : String)
    (siteId : Option String) (tok : String) (hp : p ∈ supportedProviders) :
    (env.ALLOWED_DOMAINS ≠ "" →
      (¬ rejectedForDomain (handleAuthR env origin (some p) siteId tok)
        ↔ ∃ e ∈ splitCommas env.ALLOWED_DOMAINS, specEntryMatch e (siteId.getD ""))) ∧
    (env.ALLOWED_DOMAINS = "" →
      ¬ rejectedForDomain (handleAuthR env origin (some p) siteId tok)) ∧
    handleAuthR envAllow ("https://o") (some ("github")) (some ("evil.com")) tok32
      = .page { provider := "github",
                error := some ("Your domain is not allowed to use the authenticator."),
                errorCode := some ("UNSUPPORTED_DOMAIN") } ∧
    handleAuthR envAllow ("https://o") (some ("github")) (some ("a.example.com")) tok32
      = .redirect
          ("https://github.com/login/oauth/authorize?client_id=gh-id&scope=repo%2Cuser&state=0123456789abcdef0123456789abcdef")
          ("csrf-token=github_0123456789abcdef0123456789abcdef; HttpOnly; Path=/; Max-Age=600; SameSite=Lax; Secure") := by
  have hiff := handleAuthR_unsupported_domain env origin p siteId tok hp
  refine ⟨?_, ?_, by decide, by decide⟩
  · intro hA
    have hA' : (env.ALLOWED_DOMAINS != "") = true := by
      rw [bne_iff_ne]
      exact hA
    constructor
    · intro hnr
      have hany : (splitCommas env.ALLOWED_DOMAINS).any
          (fun e => entryMatch e (siteId.getD "")) = true := by
        by_contra hany'
        have hany0 : (splitCommas env.ALLOWED_DOMAINS).any
            (fun e => entryMatch e (siteId.getD "")) = false := by
          cases hv : (splitCommas env.ALLOWED_DOMAINS).any
              (fun e => entryMatch e (siteId.getD ""))
          · rfl
          · exact absurd hv hany'
        have hblocked : domainBlocked env.ALLOWED_DOMAINS siteId = true := by
          rw [domainBlocked, hA', hany0]
          rfl
        exact hnr (hiff.mpr hblocked)
      obtain ⟨e, he, hm⟩ := List.any_eq_true.mp hany
      exact ⟨e, he, (entryMatch_iff_spec e (siteId.getD "")).mp hm⟩
    · rintro ⟨e, he, hspec⟩
      have hm := (entryMatch_iff_spec e (siteId.getD "")).mpr hspec
      have hany : (splitCommas env.ALLOWED_DOMAINS).any
          (fun e => entryMatch e (siteId.getD "")) = true :=
        List.any_eq_true.mpr ⟨e, he, hm⟩
      intro hr
      have hblocked := hiff.mp hr
      rw [domainBlocked, hany] at hblocked
      simp at hblocked
  · intro hA0
    intro hr
    have hblocked := hiff.mp hr
    rw [domainBlocked, hA0] at hblocked
    simp at hblocked

/-- C5 witness: the theorem applied at the concrete allow-list
`*.example.com`: `a.example.com` is not rejected for its domain while
`evil.com` is. -/
theorem c5_allowlist_semantics_witness :
    ("github" ∈ supportedProviders) ∧
    envAllow.ALLOWED_DOMAINS ≠ "" ∧
    ¬ rejectedForDomain
        (handleAuthR envAllow ("https://o") (some ("github")) (some ("a.example.com")) tok32) ∧
    rejectedForDomain
        (handleAuthR envAllow ("https://o") (some ("github")) (some ("evil.com")) tok32) := by
  have hgood := c5_allowlist_semantics envAllow ("https://o") ("github")
    (some ("a.example.com")) tok32 (by decide)
  have hbad := c5_allowlist_semantics envAllow ("https://o") ("github")
    (some ("evil.com")) tok32 (by decide)
  refine ⟨by decide, by decide, ?_, ?_⟩
  · exact (hgood.1 (by decide)).mpr
      ⟨"*.example.com", by decide, ⟨("a").data, by decide, by decide⟩⟩
  · exact ⟨{ provider := "github",
             error := some ("Your domain is not allowed to use the authenticator."),
             errorCode := some ("UNSUPPORTED_DOMAIN") }, hbad.2.2.1, rfl⟩

/-- C6: once a callback reaches the token exchange (recognized provider with
configured credentials, CSRF passed) and a response is obtained: an
unparseable body renders errorCode `MALFORMED_RESPONSE`; a parsed body
carrying a provider-reported non-empty `error` and no `access_token` renders
an error page carrying that error string verbatim with no local errorCode
(`errorCode = none`). -/
theorem c6_token_exchange_outcomes (env : Env) (origin h p T c : String)
    (hparse : parseCsrfCookie h = some (p, T))
    (hp2 : p = "github" ∨ p = "gitlab")
    (hcred : (p = "github" →
        falsyS env.GITHUB_CLIENT_ID = false ∧ falsyS env.GITHUB_CLIENT_SECRET = false)
      ∧ (p = "gitlab" →
        falsyS env.GITLAB_CLIENT_ID = false ∧ falsyS env.GITLAB_CLIENT_SECRET = false))
    (hc : c ≠ "") :
    handleCallbackR env origin (some c) (some T) (some h) .badJson
      = { provider := p,
          error := some ("Server responded with malformed data. Please try again later."),
          errorCode := some ("MALFORMED_RESPONSE") } ∧
    (∀ e : String, e ≠ "" →
      handleCallbackR env origin (some c) (some T) (some h) (.json none (some e))
        = { provider := p, token := some (""), error := some e, errorCode := none } ∧
      pageState { provider := p, token := some (""), error := some e, errorCode := none }
        = "error" ∧
      isErrOpts { provider := p, token := some (""), error := some e, errorCode := none }
        = true) := by
  have hp : p ∈ supportedProviders := by
    rcases hp2 with h2 | h2 <;> subst h2 <;> decide
  have hg := callbackGate_ok h p T c hparse hp hc
  have hred : ∀ fr, handleCallbackR env origin (some c) (some T) (some h) fr
      = callbackExchange env origin p c fr := by
    intro fr
    rw [handleCallbackR, hg]
    rfl
  rcases hp2 with h2 | h2 <;> subst h2
  · obtain ⟨hcid, hcs⟩ := hcred.1 rfl
    refine ⟨?_, ?_⟩
    · rw [hred]
      simp +decide [callbackExchange, hcid, hcs]
    · intro e he
      refine ⟨?_, ?_, ?_⟩
      · rw [hred]
        simp +decide [callbackExchange, hcid, hcs]
      · simp [pageState, isErrOpts, falsyS, he]
      · simp [isErrOpts, falsyS, he]
  · obtain ⟨hcid, hcs⟩ := hcred.2 rfl
    refine ⟨?_, ?_⟩
    · rw [hred]
      simp +decide [callbackExchange, hcid, hcs]
    · intro e he
      refine ⟨?_, ?_, ?_⟩
      · rw [hred]
        simp +decide [callbackExchange, hcid, hcs]
      · simp [pageState, isErrOpts, falsyS, he]
      · simp [isErrOpts, falsyS, he]

/-- C6 witness: concrete GitHub callback whose exchange yields an
unparseable body, and one whose parsed body carries
`error = "bad_verification_code"` and no `access_token`. -/
theorem c6_token_exchange_outcomes_witness :
    parseCsrfCookie cookieGH = some ("github", tok32) ∧
    (handleCallbackR envAllow ("https://o") (some ("abc")) (some (tok32))
        (some (cookieGH)) .badJson).errorCode = some ("MALFORMED_RESPONSE") ∧
    handleCallbackR envAllow ("https://o") (some ("abc")) (some (tok32))
        (some (cookieGH)) (.json none (some ("bad_verification_code")))
      = { provider := "github", token := some (""),
          error := some ("bad_verification_code"), errorCode := none } := by
  have h := c6_token_exchange_outcomes envAllow ("https://o") cookieGH ("github") tok32
    ("abc") (by decide) (Or.inl rfl)
    ⟨fun _ => ⟨rfl, rfl⟩, fun hx => absurd hx (by decide)⟩ (by decide)
  refine ⟨by decide, ?_, (h.2 ("bad_verification_code") (by decide)).1⟩
  rw [h.1]

/-- C7: an initiator request for `github` that passes the allow-list, with
GitHub client id and secret configured and a freshly minted 32-hex token,
responds HTTP 302 with `Location` equal to
`https://<GITHUB_HOSTNAME>/login/oauth/authorize?` followed by the serialized
query, whose query includes `scope=repo%2Cuser` and `state=<token>`, and a
`Set-Cookie` of the form `csrf-token=github_<32 lowercase hex>; HttpOnly;
Path=/; Max-Age=600; SameSite=Lax; Secure`. -/
theorem c7_github_redirect (env : Env) (origin : String) (siteId : Option String)
    (tok : String)
    (hd : domainBlocked env.ALLOWED_DOMAINS siteId = false)
    (hcid : falsyS env.GITHUB_CLIENT_ID = false)
    (hcs : falsyS env.GITHUB_CLIENT_SECRET = false)
    (htok : isHex32 tok = true) :
    handleAuthR env origin (some ("github")) siteId tok
      = .redirect
          ("https://" ++ env.GITHUB_HOSTNAME ++ "/login/oauth/authorize?"
            ++ serializeQuery [("client_id", env.GITHUB_CLIENT_ID.getD ""),
                               ("scope", "repo,user"), ("state", tok)])
          ("csrf-token=github_" ++ tok ++ "; HttpOnly; Path=/; Max-Age=600; SameSite=Lax; Secure") ∧
    serializeQuery [("client_id", env.GITHUB_CLIENT_ID.getD ""),
                    ("scope", "repo,user"), ("state", tok)]
      = "client_id=" ++ formEncode (env.GITHUB_CLIENT_ID.getD "")
          ++ "&scope=repo%2Cuser&state=" ++ tok ∧
    strContains
      (serializeQuery [("client_id", env.GITHUB_CLIENT_ID.getD ""),
                       ("scope", "repo,user"), ("state", tok)])
      ("scope=repo%2Cuser") ∧
    strContains
      (serializeQuery [("client_id", env.GITHUB_CLIENT_ID.getD ""),
                       ("scope", "repo,user"), ("state", tok)])
      ("state=" ++ tok) ∧
    (handleAuth env origin (some ("github")) siteId tok).status = 302 ∧
    tok.length = 32 ∧ tok.data.all isHexLC = true := by
  obtain ⟨hlen, hall⟩ := isHex32_parts htok
  have henc : formEncode tok = tok := formEncode_hex tok hall
  have hser : serializeQuery [("client_id", env.GITHUB_CLIENT_ID.getD ""),
      ("scope", "repo,user"), ("state", tok)]
      = formEncode ("client_id") ++ "=" ++ formEncode (env.GITHUB_CLIENT_ID.getD "") ++ "&"
          ++ (formEncode ("scope") ++ "=" ++ formEncode ("repo,user") ++ "&"
            ++ (formEncode ("state") ++ "=" ++ formEncode tok)) := rfl
  have hq : serializeQuery [("client_id", env.GITHUB_CLIENT_ID.getD ""),
      ("scope", "repo,user"), ("state", tok)]
      = "client_id=" ++ formEncode (env.GITHUB_CLIENT_ID.getD "")
          ++ "&scope=repo%2Cuser&state=" ++ tok := by
    rw [hser, henc]
    rw [show (formEncode ("client_id") : String) = "client_id" from by decide,
        show (formEncode ("scope") : String) = "scope" from by decide,
        show (formEncode ("repo,user") : String) = "repo%2Cuser" from by decide,
        show (formEncode ("state") : String) = "state" from by decide]
    rw [show ("client_id=" : String) = "client_id" ++ "=" from by decide,
        show ("&scope=repo%2Cuser&state=" : String)
          = "&" ++ "scope" ++ "=" ++ "repo%2Cuser" ++ "&" ++ "state" ++ "=" from by decide]
    simp only [String.append_assoc]
  have hmain : handleAuthR env origin (some ("github")) siteId tok
      = .redirect
          ("https://" ++ env.GITHUB_HOSTNAME ++ "/login/oauth/authorize?"
            ++ serializeQuery [("client_id", env.GITHUB_CLIENT_ID.getD ""),
                               ("scope", "repo,user"), ("state", tok)])
          ("csrf-token=github_" ++ tok ++ "; HttpOnly; Path=/; Max-Age=600; SameSite=Lax; Secure") := by
    rw [handleAuthR]
    simp +decide [hd, hcid, hcs]
  refine ⟨hmain, hq, ?_, ?_, ?_, hlen, hall⟩
  · refine ⟨"client_id=" ++ formEncode (env.GITHUB_CLIENT_ID.getD "") ++ "&",
      "&state=" ++ tok, ?_⟩
    rw [hq]
    rw [show ("&scope=repo%2Cuser&state=" : String)
      = "&" ++ "scope=repo%2Cuser" ++ "&state=" from by decide]
    simp only [String.append_assoc]
  · refine ⟨"client_id=" ++ formEncode (env.GITHUB_CLIENT_ID.getD "")
      ++ "&scope=repo%2Cuser&", "", ?_⟩
    rw [hq]
    rw [show ("&scope=repo%2Cuser&state=" : String)
      = "&scope=repo%2Cuser&" ++ "state=" from by decide]
    have happ : ∀ s : String, s ++ "" = s := fun s =>
      String.ext (by rw [String.data_append]; exact List.append_nil _)
    rw [happ]
    simp only [String.append_assoc]
  · rw [handleAuth, hmain]
    rfl

/-- C7 witness: the theorem applied at the concrete configuration
`envAllow` with `site_id=a.example.com` and token `tok32`. -/
theorem c7_github_redirect_witness :
    domainBlocked envAllow.ALLOWED_DOMAINS (some ("a.example.com")) = false ∧
    falsyS envAllow.GITHUB_CLIENT_ID = false ∧
    isHex32 tok32 = true ∧
    handleAuthR envAllow ("https://o") (some ("github")) (some ("a.example.com")) tok32
      = .redirect
          ("https://" ++ envAllow.GITHUB_HOSTNAME ++ "/login/oauth/authorize?"
            ++ serializeQuery [("client_id", envAllow.GITHUB_CLIENT_ID.getD ""),
                               ("scope", "repo,user"), ("state", tok32)])
          ("csrf-token=github_" ++ tok32 ++ "; HttpOnly; Path=/; Max-Age=600; SameSite=Lax; Secure") ∧
    (handleAuth envAllow ("https://o") (some ("github")) (some ("a.example.com")) tok32).status = 302 := by
  have h := c7_github_redirect envAllow ("https://o") (some ("a.example.com")) tok32
    (by decide) rfl rfl (by decide)
  exact ⟨by decide, rfl, by decide, h.1, h.2.2.2.2.1⟩

/-- A configuration with Bitbucket credentials present. -/
def envBB : Env :=
  { envAllow with
    BITBUCKET_CLIENT_ID := some ("bb-id"), BITBUCKET_CLIENT_SECRET := some ("bb-secret"),
    ALLOWED_DOMAINS := "" }

/-- A well-formed Bitbucket CSRF cookie header for `tok32`. -/
def cookieBB : String := "csrf-token=bitbucket_" ++ tok32

/-- C8: for provider `bitbucket`, the initiator (after the allow-list
passes) and the callback (after the `code`/`state` and CSRF checks pass)
both render the `UNSUPPORTED_BACKEND` error page, for every configuration —
Bitbucket credentials included, since `env` is universally quantified — and
neither leg ever yields `MISCONFIGURED_CLIENT`. -/
theorem c8_bitbucket_unsupported (env : Env) (origin : String) (siteId : Option String)
    (tok h T c : String) (fr : FetchOutcome)
    (hd : domainBlocked env.ALLOWED_DOMAINS siteId = false)
    (hparse : parseCsrfCookie h = some ("bitbucket", T))
    (hc : c ≠ "") :
    handleAuthR env origin (some ("bitbucket")) siteId tok
      = .page { provider := "bitbucket",
                error := some ("Bitbucket OAuth is not yet supported."),
                errorCode := some ("UNSUPPORTED_BACKEND") } ∧
    handleCallbackR env origin (some c) (some T) (some h) fr
      = { provider := "bitbucket",
          error := some ("Bitbucket OAuth is not yet supported."),
          errorCode := some ("UNSUPPORTED_BACKEND") } ∧
    (handleCallbackR env origin (some c) (some T) (some h) fr).errorCode
      ≠ some ("MISCONFIGURED_CLIENT") ∧
    (∀ o, handleAuthR env origin (some ("bitbucket")) siteId tok = .page o →
      o.errorCode ≠ some ("MISCONFIGURED_CLIENT")) := by
  have h1 : handleAuthR env origin (some ("bitbucket")) siteId tok
      = .page { provider := "bitbucket",
                error := some ("Bitbucket OAuth is not yet supported."),
                errorCode := some ("UNSUPPORTED_BACKEND") } := by
    rw [handleAuthR]
    simp +decide [hd]
  have hg := callbackGate_ok h ("bitbucket") T c hparse (by decide) hc
  have h2 : handleCallbackR env origin (some c) (some T) (some h) fr
      = { provider := "bitbucket",
          error := some ("Bitbucket OAuth is not yet supported."),
          errorCode := some ("UNSUPPORTED_BACKEND") } := by
    rw [handleCallbackR, hg]
    simp +decide [callbackExchange]
  refine ⟨h1, h2, ?_, ?_⟩
  · rw [h2]
    simp
  · intro o ho
    rw [h1] at ho
    injection ho with h3
    rw [← h3]
    simp

/-- C8 witness: the theorem applied at the configuration `envBB`, which has
Bitbucket credentials configured. -/
theorem c8_bitbucket_unsupported_witness :
    envBB.BITBUCKET_CLIENT_ID = some ("bb-id") ∧
    parseCsrfCookie cookieBB = some ("bitbucket", tok32) ∧
    handleAuthR envBB ("https://o") (some ("bitbucket")) (some ("a.example.com")) tok32
      = .page { provider := "bitbucket",
                error := some ("Bitbucket OAuth is not yet supported."),
                errorCode := some ("UNSUPPORTED_BACKEND") } ∧
    handleCallbackR envBB ("https://o") (some ("abc")) (some (tok32))
        (some (cookieBB)) .noResponse
      = { provider := "bitbucket",
          error := some ("Bitbucket OAuth is not yet supported."),
          errorCode := some ("UNSUPPORTED_BACKEND") } := by
  have h := c8_bitbucket_unsupported envBB ("https://o") (some ("a.example.com"))
    tok32 cookieBB tok32 ("abc") .noResponse (by decide) (by decide) (by decide)
  exact ⟨rfl, by decide, h.1, h.2.1⟩

/-- C9: for every provider string outside `\x7bgithub, gitlab, bitbucket\x7d`
(including an absent parameter and an absent or malformed cookie), both
operations render the `UNSUPPORTED_BACKEND` page, reporting the provider as
`unknown`, and the only `Set-Cookie` either emits is the `Max-Age=0`
deletion cookie — never an active one. -/
theorem c9_unknown_provider (env : Env) (origin : String)
    (provider siteId : Option String) (tok : String)
    (code state cookieHeader : Option String) (fr : FetchOutcome)
    (hprov : supportedProviders.contains (provider.getD "") = false)
    (hcb : supportedProviders.contains
      (((cookieHeader.bind parseCsrfCookie).map Prod.fst).getD "") = false) :
    handleAuthR env origin provider siteId tok
      = .page { error := some ("Your Git backend is not supported by the authenticator."),
                errorCode := some ("UNSUPPORTED_BACKEND") } ∧
    ({ error := some ("Your Git backend is not supported by the authenticator."),
       errorCode := some ("UNSUPPORTED_BACKEND") } : OutputHTMLOptions).provider
      = "unknown" ∧
    (handleAuth env origin provider siteId tok).setCookie = some (deletionCookie env) ∧
    handleCallbackR env origin code state cookieHeader fr
      = { error := some ("Your Git backend is not supported by the authenticator."),
          errorCode := some ("UNSUPPORTED_BACKEND") } ∧
    (handleCallback env origin code state cookieHeader fr).setCookie
      = some (deletionCookie env) ∧
    strContains (deletionCookie env) ("Max-Age=0") := by
  have h1 : handleAuthR env origin provider siteId tok
      = .page { error := some ("Your Git backend is not supported by the authenticator."),
                errorCode := some ("UNSUPPORTED_BACKEND") } := by
    have hcond : (falsyS provider || !(supportedProviders.contains (provider.getD ""))) = true := by
      rw [hprov]
      simp
    have hnotmem : ¬ (provider.getD "" ∈ supportedProviders) := by
      intro hm
      have hc2 := (mem_supported_facts hm).1
      rw [hc2] at hprov
      cases hprov
    rw [handleAuthR]
    simp [hcond]
    intro _ h2
    exact absurd h2 hnotmem
  have h2 : handleCallbackR env origin code state cookieHeader fr
      = { error := some ("Your Git backend is not supported by the authenticator."),
          errorCode := some ("UNSUPPORTED_BACKEND") } := by
    rw [handleCallbackR, callbackGate_unsupported code state cookieHeader hcb]
  refine ⟨h1, rfl, ?_, h2, rfl, deletionCookie_hasMaxAge0 env⟩
  rw [handleAuth, h1]
  rfl

/-- C9 witness: provider `gitea` on the initiator and a cookie for the
unrecognized provider `gitea` on the callback both yield the
`UNSUPPORTED_BACKEND` page and the deletion cookie. -/
theorem c9_unknown_provider_witness :
    supportedProviders.contains ("gitea") = false ∧
    (handleAuthR envAllow ("https://o") (some ("gitea")) (some ("a.example.com")) tok32
      = .page { error := some ("Your Git backend is not supported by the authenticator."),
                errorCode := some ("UNSUPPORTED_BACKEND") }) ∧
    (handleCallback envAllow ("https://o") (some ("abc")) (some (tok32))
        (some ("csrf-token=gitea_" ++ tok32)) .noResponse).setCookie
      = some (deletionCookie envAllow) := by
  have h := c9_unknown_provider envAllow ("https://o") (some ("gitea"))
    (some ("a.example.com")) tok32 (some ("abc")) (some (tok32))
    (some ("csrf-token=gitea_" ++ tok32)) .noResponse (by decide) (by decide)
  exact ⟨by decide, h.1, h.2.2.2.2.1⟩

/-- C10: the callback recognizes the CSRF cookie only when the `Cookie`
header contains a substring of the shape
`csrf-token=<lowercase letters or hyphens>_<exactly 32 lowercase hex>`
(soundness of the parser, with the extracted groups of that shape); when the
header contains no such substring the parse is empty and the request ends in
the `UNSUPPORTED_BACKEND` page with provider `unknown`, never reaching the
CSRF comparison (`CSRF_DETECTED` is impossible). -/
theorem c10_cookie_recognition (h : String) :
    (∀ p t, parseCsrfCookie h = some (p, t) →
      hasShape h.data = true ∧ p ≠ "" ∧ (∀ c ∈ p.data, isProvChar c = true) ∧
        t.length = 32 ∧ t.data.all isHexLC = true) ∧
    (hasShape h.data = false →
      parseCsrfCookie h = none ∧
      ∀ (env : Env) (origin : String) (code state : Option String) (fr : FetchOutcome),
        handleCallbackR env origin code state (some h) fr
          = { error := some ("Your Git backend is not supported by the authenticator."),
              errorCode := some ("UNSUPPORTED_BACKEND") } ∧
        (handleCallbackR env origin code state (some h) fr).errorCode
          ≠ some ("CSRF_DETECTED")) := by
  constructor
  · intro p t hp
    exact parseCsrfCookie_sound hp
  · intro hs
    have hnone := parseCsrfCookie_of_no_shape hs
    refine ⟨hnone, ?_⟩
    intro env origin code state fr
    have hcb : supportedProviders.contains
        ((((some h).bind parseCsrfCookie).map Prod.fst).getD "") = false := by
      simp +decide [hnone]
    have h2 : handleCallbackR env origin code state (some h) fr
        = { error := some ("Your Git backend is not supported by the authenticator."),
            errorCode := some ("UNSUPPORTED_BACKEND") } := by
      rw [handleCallbackR, callbackGate_unsupported code state (some h) hcb]
    refine ⟨h2, ?_⟩
    rw [h2]
    simp

/-- C10 witness: an uppercase-hex cookie value is not of the required shape,
is treated as an absent cookie, and ends in `UNSUPPORTED_BACKEND` rather
than `CSRF_DETECTED`. -/
theorem c10_cookie_recognition_witness :
    hasShape ("csrf-token=github_0123456789ABCDEF0123456789ABCDEF").data = false ∧
    parseCsrfCookie ("csrf-token=github_0123456789ABCDEF0123456789ABCDEF") = none ∧
    handleCallbackR envAllow ("https://o") (some ("abc")) (some (tok32))
        (some ("csrf-token=github_0123456789ABCDEF0123456789ABCDEF")) .noResponse
      = { error := some ("Your Git backend is not supported by the authenticator."),
          errorCode := some ("UNSUPPORTED_BACKEND") } := by
  have h := (c10_cookie_recognition ("csrf-token=github_0123456789ABCDEF0123456789ABCDEF")).2
    (by decide)
  exact ⟨by decide, h.1,
    (h.2 envAllow ("https://o") (some ("abc")) (some (tok32)) .noResponse).1⟩
